import Mathlib

/-!
# Verification of the luff authentication / token-lifecycle subsystem

A shallow embedding of the OAuth2 / SSO authentication code of the `luff`
repository (`packages/shared/src/http.ts`, `packages/garmin/src/auth.ts`,
`packages/mail/src/cli.ts` callback server), together with proofs of the
specified properties.

Modelling conventions:
* JavaScript numbers that can be `NaN` are modelled by `JNum`
  (`parseInt` can produce `NaN`, and `now < NaN` is `false`).
* JSON field values are modelled by `JSVal`; an absent field is `none`.
* The macOS-Keychain `SecretStore` (an external collaborator, out of scope
  for the spec) is modelled as an association list keyed by
  `(tool, account)` with standard get/set semantics.
* Network responses are oracle parameters: each HTTP exchange is a value
  handed to the embedded function, and the functions additionally return
  call counts so that "no network call" / "exactly one refresh" are
  expressible.
-/

namespace Luff

instance {e a : Type _} [DecidableEq e] [DecidableEq a] :
    DecidableEq (Except e a) := fun x y =>
  match x, y with
  | .ok u, .ok v =>
    if h : u = v then isTrue (by rw [h])
    else isFalse (fun hc => h (Except.ok.inj hc))
  | .error u, .error v =>
    if h : u = v then isTrue (by rw [h])
    else isFalse (fun hc => h (Except.error.inj hc))
  | .ok _, .error _ => isFalse (fun hc => Except.noConfusion hc)
  | .error _, .ok _ => isFalse (fun hc => Except.noConfusion hc)

/-- JavaScript number restricted to the values the token code produces:
an integer or `NaN`. -/
inductive JNum where
  | nan : JNum
  | int (n : Int) : JNum
deriving DecidableEq, Repr

/-- JavaScript whitespace (the characters `parseInt` skips and `\s` matches). -/
def isJsSpace (c : Char) : Bool :=
  c = ' ' || c = '\t' || c = '\n' || c = '\r' || c = '\x0b' || c = '\x0c' ||
  c = ' ' || c = ' ' || (' ' ≤ c && c ≤ ' ') ||
  c = ' ' || c = ' ' || c = ' ' || c = ' ' ||
  c = '　' || c = '﻿'

/-- Numeric value of a list of decimal digit characters. -/
def digitsVal (l : List Char) : Nat :=
  l.foldl (fun acc c => acc * 10 + (c.toNat - '0'.toNat)) 0

/-- Model of JavaScript `parseInt(s, 10)`: skip leading whitespace, optional
sign, then the longest prefix of decimal digits; `NaN` when there is none. -/
def parseIntJS (s : String) : JNum :=
  let l := s.data.dropWhile isJsSpace
  let core : List Char → Bool → JNum := fun l neg =>
    let ds := l.takeWhile Char.isDigit
    if ds.isEmpty then .nan
    else .int (if neg then -(digitsVal ds : Int) else (digitsVal ds : Int))
  match l with
  | '-' :: rest => core rest true
  | '+' :: rest => core rest false
  | _ => core l false

/-- JavaScript `a < b` where `b` may be `NaN` (any comparison with `NaN`
is `false`). -/
def jlt (a : Int) (b : JNum) : Bool :=
  match b with
  | .nan => false
  | .int v => a < v

/-- JavaScript `a >= b` where `b` may be `NaN`. -/
def jge (a : Int) (b : JNum) : Bool :=
  match b with
  | .nan => false
  | .int v => v ≤ a

/-- Computes `now + expiresIn - 60` with `NaN` propagation. -/
def jexpiry (now : Int) (e : JNum) : JNum :=
  match e with
  | .nan => .nan
  | .int v => .int (now + v - 60)

/-- JavaScript `String(n)` on a `JNum`. -/
def jnumToString (n : JNum) : String :=
  match n with
  | .nan => "NaN"
  | .int v => toString v

/-- A JSON-ish JavaScript value as it appears in a parsed provider
response (`Record<string, unknown>` in the source). `vobj` stands for any
object/array value (always truthy, never a string or number). -/
inductive JSVal where
  | vstr (s : String) : JSVal
  | vnum (n : Int) : JSVal
  | vnan : JSVal
  | vbool (b : Bool) : JSVal
  | vnull : JSVal
  | vobj : JSVal
deriving DecidableEq, Repr

/-- JavaScript truthiness of an optional field (`undefined` ↦ falsy). -/
def truthyV (o : Option JSVal) : Bool :=
  match o with
  | none => false
  | some (.vstr s) => s ≠ ""
  | some (.vnum n) => n ≠ 0
  | some .vnan => false
  | some (.vbool b) => b
  | some .vnull => false
  | some .vobj => true

/-- JavaScript truthiness of a `string | null` value. -/
def truthyS (o : Option String) : Bool :=
  match o with
  | none => false
  | some s => s ≠ ""

/-- JavaScript `??` (nullish coalescing) on optional fields: `null` and
`undefined` fall through. -/
def nullCoalesce (a b : Option JSVal) : Option JSVal :=
  match a with
  | none => b
  | some .vnull => b
  | some v => some v

/-- JavaScript string interpolation of a value. -/
def jsDisplay (v : JSVal) : String :=
  match v with
  | .vstr s => s
  | .vnum n => toString n
  | .vnan => "NaN"
  | .vbool b => cond b "true" "false"
  | .vnull => "null"
  | .vobj => "[object Object]"

-- ── SecretStore (spec §6: opaque key-value store, keyed (tool, account)) ──

/-- The secret store state: an association list from `(tool, account)` to
the stored secret string. -/
def Store := List ((String × String) × String)

instance : DecidableEq Store := inferInstanceAs (DecidableEq (List _))

/-- Model of `getSecret(tool, account)`: `null` (i.e. `none`) when absent. -/
def getSecret (st : Store) (tool acct : String) : Option String :=
  (st.find? (fun e => decide (e.1 = (tool, acct)))).map (·.2)

/-- Model of `setSecret(tool, account, value)`: update-or-insert. -/
def setSecret (st : Store) (tool acct v : String) : Store :=
  ((tool, acct), v) :: st.filter (fun e => decide (e.1 ≠ (tool, acct)))

theorem getSecret_setSecret_self (st : Store) (t a v : String) :
    getSecret (setSecret st t a v) t a = some v := by
  simp [getSecret, setSecret, List.find?]

theorem find?_filter_ne (l : List ((String × String) × String))
    (k k' : String × String) (hk : k ≠ k') :
    (l.filter (fun e => decide (e.1 ≠ k))).find? (fun e => decide (e.1 = k'))
      = l.find? (fun e => decide (e.1 = k')) := by
  induction l with
  | nil => rfl
  | cons e rest ih =>
    by_cases he : e.1 = k
    · rw [List.filter_cons_of_neg (by simp [he]),
        List.find?_cons_of_neg _ (by simp [he, hk]), ih]
    · rw [List.filter_cons_of_pos (by simp [he])]
      by_cases hp : e.1 = k'
      · rw [List.find?_cons_of_pos _ (by simp [hp]),
          List.find?_cons_of_pos _ (by simp [hp])]
      · rw [List.find?_cons_of_neg _ (by simp [hp]),
          List.find?_cons_of_neg _ (by simp [hp]), ih]

theorem getSecret_setSecret_ne (st : Store) (t a v t' a' : String)
    (h : (t, a) ≠ (t', a')) :
    getSecret (setSecret st t a v) t' a' = getSecret st t' a' := by
  simp only [getSecret, setSecret]
  rw [List.find?_cons_of_neg _ (by simp [h]), find?_filter_ne _ _ _ h]

-- ── packages/shared/src/http.ts: OAuth2 client ──────────────────────────

/-- Structure `OAuth2Tokens` (http.ts). `expiresAt` is a `JNum` because the value read
back from the store goes through `parseInt` and can be `NaN`. -/
structure OAuth2Tokens where
  accessToken : String
  refreshToken : String
  expiresAt : JNum
deriving DecidableEq, Repr

/-- The parsed JSON body of a token-endpoint response
(`Record<string, unknown>` in the source); only the consumed fields are
modelled, `none` meaning the field is absent. -/
structure TokenResp where
  access_token : Option JSVal := none
  refresh_token : Option JSVal := none
  expires_in : Option JSVal := none
  error : Option JSVal := none
  error_description : Option JSVal := none
deriving DecidableEq, Repr

/-- Model of `(data.error_description ?? data.error ?? "unknown") as string`
(http.ts, lines 166 and 198). -/
def errText (d : TokenResp) : String :=
  jsDisplay ((nullCoalesce d.error_description
    (nullCoalesce d.error (some (.vstr "unknown")))).getD (.vstr "unknown"))

/-- The `expiresIn` computation of `parseTokenResponse` (http.ts 284-287):
`typeof rawExpires === "number" ? rawExpires : typeof rawExpires === "string"
? parseInt(rawExpires, 10) || 3600 : 3600`. -/
def expiresInOf (d : TokenResp) : JNum :=
  match d.expires_in with
  | some (.vnum n) => .int n
  | some .vnan => .nan
  | some (.vstr s) =>
    match parseIntJS s with
    | .nan => .int 3600
    | .int 0 => .int 3600
    | .int k => .int k
  | _ => .int 3600

/-- The `refreshToken` selection of `parseTokenResponse` (http.ts 289-292):
`(typeof rawRefresh === "string" && rawRefresh) ? rawRefresh :
existingRefreshToken`. -/
def refreshTokenOf (d : TokenResp) (existingRefreshToken : Option String) :
    Option String :=
  match d.refresh_token with
  | some (.vstr r) => if r = "" then existingRefreshToken else some r
  | _ => existingRefreshToken

/-- Model of `parseTokenResponse` (http.ts 275-302). -/
def parseTokenResponse (d : TokenResp) (now : Int)
    (existingRefreshToken : Option String) : Except String OAuth2Tokens :=
  match d.access_token with
  | some (.vstr a) =>
    if a = "" then .error "Token response missing valid access_token"
    else
      match refreshTokenOf d existingRefreshToken with
      | some r =>
        if r = "" then
          .error "No refresh token in response and no existing token to preserve"
        else .ok ⟨a, r, jexpiry now (expiresInOf d)⟩
      | none =>
        .error "No refresh token in response and no existing token to preserve"
  | _ => .error "Token response missing valid access_token"

/-- Model of `exchangeCode` (http.ts 143-171); the token-endpoint POST is abstracted
by the response body `d`. -/
def exchangeCode (d : TokenResp) (now : Int) : Except String OAuth2Tokens :=
  if truthyV d.access_token then parseTokenResponse d now none
  else .error ("Token exchange failed: " ++ errText d)

/-- Model of `refreshAccessToken` (http.ts 176-203). -/
def refreshAccessToken (d : TokenResp) (now : Int) (refreshToken : String) :
    Except String OAuth2Tokens :=
  if truthyV d.access_token then parseTokenResponse d now (some refreshToken)
  else .error ("Token refresh failed: " ++ errText d ++
    ". Re-authenticate with auth-login.")

/-- Model of `saveTokens` (http.ts 208-212). -/
def saveTokens (st : Store) (tool : String) (tk : OAuth2Tokens) : Store :=
  setSecret (setSecret (setSecret st tool "access-token" tk.accessToken)
    tool "refresh-token" tk.refreshToken)
    tool "expires-at" (jnumToString tk.expiresAt)

/-- Model of `loadTokens` (http.ts 217-227): `null` when access or refresh token is
missing/empty; `expiresAt ? parseInt(expiresAt, 10) : 0`. -/
def loadTokens (st : Store) (tool : String) : Option OAuth2Tokens :=
  match getSecret st tool "access-token", getSecret st tool "refresh-token" with
  | some a, some r =>
    if a = "" || r = "" then none
    else some ⟨a, r,
      match getSecret st tool "expires-at" with
      | some e => if e = "" then .int 0 else parseIntJS e
      | none => .int 0⟩
  | _, _ => none

/-- Structure `OAuth2Credentials` (client id/secret/redirect URI). -/
structure OAuth2Credentials where
  clientId : String
  clientSecret : String
  redirectUri : String
deriving DecidableEq, Repr

/-- Model of `loadOAuth2Credentials` (http.ts 107-119). -/
def loadOAuth2Credentials (st : Store) (tool : String) :
    Except String OAuth2Credentials :=
  match getSecret st tool "client-id", getSecret st tool "client-secret",
      getSecret st tool "redirect-uri" with
  | some ci, some cs, some ru =>
    if ci = "" || cs = "" || ru = "" then
      .error ("No OAuth2 credentials for \"" ++ tool ++ "\". Run: "
        ++ tool ++ " auth-setup")
    else .ok ⟨ci, cs, ru⟩
  | _, _, _ =>
    .error ("No OAuth2 credentials for \"" ++ tool ++ "\". Run: "
      ++ tool ++ " auth-setup")

/-- The token-expired branch of `getValidAccessToken` (http.ts 252-261):
load credentials, perform the single refresh call (response abstracted by
`refreshResp`), persist, return.  The `Nat` in the result counts refresh
calls performed. -/
def refreshBranch (st : Store) (tool : String) (credentialsTool : Option String)
    (now : Int) (refreshResp : TokenResp) (tokens : OAuth2Tokens) :
    Except String (String × Store × Nat) :=
  match loadOAuth2Credentials st (credentialsTool.getD tool) with
  | .error e => .error e
  | .ok _creds =>
    match refreshAccessToken refreshResp now tokens.refreshToken with
    | .error e => .error e
    | .ok refreshed =>
      .ok (refreshed.accessToken, saveTokens st tool refreshed, 1)

/-- Model of `getValidAccessToken` (http.ts 237-262).  The OAuth2 endpoint config
only shapes the HTTP request, which is abstracted by the oracle
`refreshResp`; the result's `Nat` counts refresh calls (0 = no network
call). -/
def getValidAccessToken (st : Store) (tool : String)
    (credentialsTool : Option String) (now : Int) (refreshResp : TokenResp) :
    Except String (String × Store × Nat) :=
  match loadTokens st tool with
  | none => .error ("Not logged in. Run: " ++ tool ++ " auth-login")
  | some tokens =>
    if jlt now tokens.expiresAt then .ok (tokens.accessToken, st, 0)
    else refreshBranch st tool credentialsTool now refreshResp tokens

-- ── packages/garmin/src/auth.ts: percent-encoding (OAuth1 signing) ──────

/-- Uppercase hex digit for `n < 16`. -/
def hexDigitUpper (n : Nat) : Char :=
  if n < 10 then Char.ofNat ('0'.toNat + n)
  else Char.ofNat ('A'.toNat + n - 10)

/-- The UTF-8 bytes of a character (what `encodeURIComponent` escapes,
byte by byte). -/
def utf8Bytes (c : Char) : List Nat :=
  let n := c.toNat
  if n < 0x80 then [n]
  else if n < 0x800 then [0xC0 + n / 64, 0x80 + n % 64]
  else if n < 0x10000 then
    [0xE0 + n / 4096, 0x80 + n / 64 % 64, 0x80 + n % 64]
  else
    [0xF0 + n / 262144, 0x80 + n / 4096 % 64, 0x80 + n / 64 % 64,
      0x80 + n % 64]

/-- The `%XX` escape of one byte (`X` uppercase hex).  The `% 16` on the high
nibble is a no-op for actual bytes (< 256). -/
def byteEscapeL (b : Nat) : List Char :=
  ['%', hexDigitUpper (b / 16 % 16), hexDigitUpper (b % 16)]

/-- The characters ECMAScript `encodeURIComponent` leaves unescaped:
`A–Z a–z 0–9 - _ . ! ~ * ' ( )`. -/
def isUriUnescapedECMA (c : Char) : Bool :=
  c.isAlphanum || c = '-' || c = '_' || c = '.' || c = '!' || c = '~' ||
  c = '*' || c = Char.ofNat 39 || c = '(' || c = ')'

/-- Per-character action of `encodeURIComponent`. -/
def encURICharL (c : Char) : List Char :=
  if isUriUnescapedECMA c then [c] else (utf8Bytes c).flatMap byteEscapeL

/-- The character class `[!'()*]` of the `replace` in `percentEncode`. -/
def isBangClass (c : Char) : Bool :=
  c = '!' || c = Char.ofNat 39 || c = '(' || c = ')' || c = '*'

/-- JavaScript `n.toString(16).toUpperCase()` for `n < 16^6` (covers every
character code), as used in the `replace` callback. -/
def natHexUpperL (n : Nat) : List Char :=
  if n < 16 then [hexDigitUpper n]
  else if n < 256 then [hexDigitUpper (n / 16), hexDigitUpper (n % 16)]
  else if n < 4096 then
    [hexDigitUpper (n / 256), hexDigitUpper (n / 16 % 16),
      hexDigitUpper (n % 16)]
  else if n < 65536 then
    [hexDigitUpper (n / 4096), hexDigitUpper (n / 256 % 16),
      hexDigitUpper (n / 16 % 16), hexDigitUpper (n % 16)]
  else if n < 1048576 then
    [hexDigitUpper (n / 65536), hexDigitUpper (n / 4096 % 16),
      hexDigitUpper (n / 256 % 16), hexDigitUpper (n / 16 % 16),
      hexDigitUpper (n % 16)]
  else
    [hexDigitUpper (n / 1048576), hexDigitUpper (n / 65536 % 16),
      hexDigitUpper (n / 4096 % 16), hexDigitUpper (n / 256 % 16),
      hexDigitUpper (n / 16 % 16), hexDigitUpper (n % 16)]

/-- Per-character action of
`.replace(/[!'()*]/g, c => "%" + c.charCodeAt(0).toString(16).toUpperCase())`. -/
def bangCharL (c : Char) : List Char :=
  if isBangClass c then '%' :: natHexUpperL c.toNat else [c]

/-- Model of `percentEncode` (auth.ts 20-24):
`encodeURIComponent(str).replace(/[!'()*]/g, c => "%" + hex(c))`. -/
def percentEncode (s : String) : String :=
  ⟨(s.data.flatMap encURICharL).flatMap bangCharL⟩

/-- Modelled from the spec: RFC 3986 unreserved characters
(letters, digits, `-._~`). -/
def isRfcUnreserved (c : Char) : Bool :=
  c.isAlphanum || c = '-' || c = '.' || c = '_' || c = '~'

/-- Modelled from the spec: RFC 3986 percent-encoding — unreserved
characters kept, every other character escaped as the `%XX` codes of its
UTF-8 bytes. -/
def rfcCharL (c : Char) : List Char :=
  if isRfcUnreserved c then [c] else (utf8Bytes c).flatMap byteEscapeL

/-- Modelled from the spec: full RFC 3986 encoding of a string. -/
def rfc3986Encode (s : String) : String :=
  ⟨s.data.flatMap rfcCharL⟩

-- ── packages/garmin/src/auth.ts: SSO login outcome classification ───────

/-- Characters permitted in the ticket value: the class `[^"&\s]` of the
regex `/ticket=([^"&\s]+)/`. -/
def isTicketChar (c : Char) : Bool :=
  !(c = '"' || c = '&' || isJsSpace c)

/-- First match of `/ticket=([^"&\s]+)/`: scan left to right; at each
position require the literal `ticket=` followed by at least one ticket
character, and capture the longest run. -/
def ticketScan : List Char → Option String
  | [] => none
  | c :: rest =>
    if "ticket=".data.isPrefixOf (c :: rest) then
      match (c :: rest).drop 7 with
      | [] => ticketScan rest
      | c2 :: after =>
        if isTicketChar c2 then some ⟨c2 :: after.takeWhile isTicketChar⟩
        else ticketScan rest
    else ticketScan rest

/-- Model of `String.prototype.includes` (substring test). -/
def containsSubList : List Char → List Char → Bool
  | l, sub =>
    match l with
    | [] => sub.isEmpty
    | _ :: rest => sub.isPrefixOf l || containsSubList rest sub

/-- Model of `html.includes(sub)`. -/
def containsSub (html sub : String) : Bool :=
  containsSubList html.data sub.data

/-- The possible outcomes of the SSO credential submission (auth.ts
180-195), as a closed tagged union. -/
inductive LoginOutcome where
  | accountLocked : LoginOutcome
  | mfaRequired : LoginOutcome
  | loginFailed : LoginOutcome
  | success (ticket : String) : LoginOutcome
deriving DecidableEq, Repr

/-- The response-body classification of `login` (auth.ts 183-195):
`locked` substring first, then ticket extraction, and only when no ticket
matched, the `MFA` check, else failure. -/
def classifyLogin (html : String) : LoginOutcome :=
  if containsSub html "locked" then .accountLocked
  else
    match ticketScan html.data with
    | some t => .success t
    | none =>
      if containsSub html "MFA" then .mfaRequired else .loginFailed

-- ── packages/garmin/src/auth.ts: OAuth1→OAuth2 exchange and lifecycle ───

/-- Provider-wide OAuth1 signing credentials. -/
structure Consumer where
  consumer_key : String
  consumer_secret : String
deriving DecidableEq, Repr

/-- The (unvalidated, typed-cast) JSON body of the OAuth1→OAuth2 exchange
response (auth.ts 265-270). -/
structure GData where
  access_token : String
  refresh_token : String
  expires_in : Int
  refresh_token_expires_in : Int
deriving DecidableEq, Repr

/-- Model of `exchangeOAuth2` (auth.ts 237-277); the signed POST is abstracted by
`resp` (`.error` = network/HTTP failure, in which case nothing is
persisted). On success the four token secrets are persisted with the
60-second safety buffer on both expiries. -/
def exchangeOAuth2 (st : Store) (now : Int) (resp : Except String GData) :
    Except String Store :=
  match resp with
  | .error e => .error ("OAuth2 exchange failed: " ++ e)
  | .ok d =>
    .ok (setSecret (setSecret (setSecret (setSecret st
      "garmin" "access-token" d.access_token)
      "garmin" "refresh-token" d.refresh_token)
      "garmin" "expires-at" (toString (now + d.expires_in - 60)))
      "garmin" "refresh-expires-at" (toString (now + d.refresh_token_expires_in - 60)))

/-- Model of `getConsumer` (auth.ts 113-131): Keychain cache first, else one fetch
from the public endpoint (abstracted by `fetchResp`), cached on success.
The `Nat` counts network fetches. -/
def getConsumer (st : Store) (fetchResp : Except String Consumer) :
    Except String (Consumer × Store) × Nat :=
  match getSecret st "garmin" "consumer-key" with
  | some k =>
    if k = "" then
      match fetchResp with
      | .error e => (.error ("Failed to fetch consumer credentials: " ++ e), 1)
      | .ok c =>
        (.ok (c, setSecret (setSecret st "garmin" "consumer-key" c.consumer_key)
          "garmin" "consumer-secret" c.consumer_secret), 1)
    else
      match getSecret st "garmin" "consumer-secret" with
      | some s2 => (.ok (⟨k, s2⟩, st), 0)
      | none =>
        (.error "No secret found in Keychain for \"garmin/consumer-secret\". Run: garmin setup", 0)
  | none =>
    match fetchResp with
    | .error e => (.error ("Failed to fetch consumer credentials: " ++ e), 1)
    | .ok c =>
      (.ok (c, setSecret (setSecret st "garmin" "consumer-key" c.consumer_key)
        "garmin" "consumer-secret" c.consumer_secret), 1)

/-- Garmin `getValidAccessToken` (auth.ts 281-309).  Result is
`(outcome, exchangeCalls, consumerFetches)` so that "exactly one refresh"
and "no network call" are expressible. -/
def garminGetValidAccessToken (st : Store) (now : Int)
    (consumerResp : Except String Consumer) (exchangeResp : Except String GData) :
    Except String (String × Store) × Nat × Nat :=
  match getSecret st "garmin" "access-token" with
  | none => (.error "Not logged in. Run: garmin login", 0, 0)
  | some a =>
    if a = "" then (.error "Not logged in. Run: garmin login", 0, 0)
    else
      let expiresAt := parseIntJS ((getSecret st "garmin" "expires-at").getD "0")
      if jlt now expiresAt then (.ok (a, st), 0, 0)
      else if ¬ (truthyS (getSecret st "garmin" "oauth1-token")
          && truthyS (getSecret st "garmin" "oauth1-secret")) then
        (.error "OAuth1 tokens missing. Run: garmin login", 0, 0)
      else
        let refreshExpiresAt :=
          parseIntJS ((getSecret st "garmin" "refresh-expires-at").getD "0")
        if jge now refreshExpiresAt then
          (.error "Refresh token expired. Run: garmin login", 0, 0)
        else
          match getConsumer st consumerResp with
          | (.error e, f) => (.error e, 0, f)
          | (.ok (_cons, st2), f) =>
            match exchangeOAuth2 st2 now exchangeResp with
            | .error e => (.error e, 1, f)
            | .ok st3 =>
              match getSecret st3 "garmin" "access-token" with
              | some v => (.ok (v, st3), 1, f)
              | none =>
                (.error "No secret found in Keychain for \"garmin/access-token\". Run: garmin setup", 1, f)

/-- The tail of `login` (auth.ts 226-231): persist the OAuth1 token pair,
then attempt the OAuth1→OAuth2 exchange.  Returns the outcome together
with the store as it stands when the call returns or throws. -/
def garminLoginTail (st : Store) (oauthToken oauthTokenSecret : String)
    (now : Int) (exchangeResp : Except String GData) :
    Except String Unit × Store :=
  let st1 := setSecret (setSecret st "garmin" "oauth1-token" oauthToken)
    "garmin" "oauth1-secret" oauthTokenSecret
  match exchangeOAuth2 st1 now exchangeResp with
  | .error e => (.error e, st1)
  | .ok st2 => (.ok (), st2)

-- ── packages/mail/src/cli.ts: oauthCallbackFlow handler ─────────────────

/-- A request to the local callback listener: the `error`, `code` and
`state` query parameters (`URLSearchParams.get`, `none` = absent). -/
structure CbRequest where
  error : Option String := none
  code : Option String := none
  state : Option String := none
deriving DecidableEq, Repr

/-- The promise cell of `oauthCallbackFlow`: `none` while pending,
`some (.ok (code, redirectUri))` once resolved,
`some (.error msg)` once rejected.  A settled promise ignores later
`resolve`/`reject` calls. -/
def CbCell := Option (Except String (String × String))

instance : DecidableEq CbCell :=
  inferInstanceAs (DecidableEq (Option (Except String (String × String))))

/-- First settlement wins (JavaScript promise semantics). -/
def cbSettle (cell : CbCell) (v : Except String (String × String)) : CbCell :=
  match cell with
  | some w => some w
  | none => some v

/-- One request to the `Bun.serve` handler of `oauthCallbackFlow`
(cli.ts): returns the new promise cell and the response body. -/
def cbHandle (expectedState redirectUri : String) (cell : CbCell)
    (req : CbRequest) : CbCell × String :=
  if truthyS req.error then
    (cbSettle cell (.error ("OAuth2 error: " ++ req.error.getD "")),
      "Authentication failed: " ++ req.error.getD "" ++ ". Close this tab.")
  else
    match req.code with
    | none => (cell, "Waiting for OAuth2 callback...")
    | some c =>
      if c = "" then (cell, "Waiting for OAuth2 callback...")
      else if req.state ≠ some expectedState then
        (cbSettle cell (.error "OAuth2 state mismatch — possible CSRF"),
          "State mismatch. Authentication aborted.")
      else
        (cbSettle cell (.ok (c, redirectUri)),
          "Authenticated! You can close this tab and return to the terminal.")

-- ── Concrete inputs used by the witness theorems ────────────────────────

/-- A logged-in store for the generic OAuth2 client: tokens expired at 100,
client credentials present. -/
def demoStore : Store :=
  [(("cal", "access-token"), "A"), (("cal", "refresh-token"), "R"),
   (("cal", "expires-at"), "100"), (("cal", "client-id"), "CI"),
   (("cal", "client-secret"), "CS"), (("cal", "redirect-uri"), "RU")]

/-- A successful refresh response. -/
def demoRefreshResp : TokenResp :=
  { access_token := some (.vstr "NEWA"), refresh_token := some (.vstr "NEWR"),
    expires_in := some (.vnum 3600) }

/-- A refresh response that omits `refresh_token`. -/
def demoNoRefreshResp : TokenResp :=
  { access_token := some (.vstr "NEWA"), expires_in := some (.vnum 3600) }

/-- A complete code-exchange response. -/
def demoFullResp : TokenResp :=
  { access_token := some (.vstr "a"), refresh_token := some (.vstr "r"),
    expires_in := some (.vnum 100) }

/-- A store whose `expires-at` value is the non-numeric string `"abc"`. -/
def demoNanStore : Store :=
  [(("cal", "access-token"), "A"), (("cal", "refresh-token"), "R"),
   (("cal", "expires-at"), "abc")]

/-- A logged-in Garmin store: access token expired at 10, refresh expiry
100, OAuth1 tokens and consumer credentials cached. -/
def demoGarminStore : Store :=
  [(("garmin", "access-token"), "A"), (("garmin", "expires-at"), "10"),
   (("garmin", "oauth1-token"), "OT"), (("garmin", "oauth1-secret"), "OS"),
   (("garmin", "refresh-expires-at"), "100"),
   (("garmin", "consumer-key"), "CK"), (("garmin", "consumer-secret"), "CSEC")]

/-- Same Garmin store but with the refresh expiry already in the past. -/
def demoGarminDeadStore : Store :=
  [(("garmin", "access-token"), "A"), (("garmin", "expires-at"), "10"),
   (("garmin", "oauth1-token"), "OT"), (("garmin", "oauth1-secret"), "OS"),
   (("garmin", "refresh-expires-at"), "40"),
   (("garmin", "consumer-key"), "CK"), (("garmin", "consumer-secret"), "CSEC")]

/-- A successful OAuth1→OAuth2 exchange response. -/
def demoGData : GData :=
  { access_token := "NEWA", refresh_token := "NEWR",
    expires_in := 3600, refresh_token_expires_in := 86400 }

-- ── General helper lemmas ───────────────────────────────────────────────

theorem listFlatMap_assoc {α β γ : Type _} (l : List α) (f : α → List β)
    (g : β → List γ) :
    (l.flatMap f).flatMap g = l.flatMap (fun x => (f x).flatMap g) := by
  induction l with
  | nil => rfl
  | cons a t ih => simp [List.flatMap_cons, List.flatMap_append, ih]

theorem string_append_ne (p q : String)
    (h : p.data.isPrefixOf q.data = false) : ∀ m, p ++ m ≠ q := by
  intro m hc
  have hd : p.data ++ m.data = q.data := by rw [← hc]; rfl
  have hp : p.data <+: q.data := ⟨m.data, hd⟩
  rw [← List.isPrefixOf_iff_prefix, h] at hp
  exact Bool.noConfusion hp

-- ── Claim C8: percent-encoding is exactly RFC 3986 ──────────────────────

theorem hexDigitUpper_not_bang : ∀ n, n < 16 →
    isBangClass (hexDigitUpper n) = false := by decide

theorem byteEscapeL_bang_fixed (b : Nat) :
    (byteEscapeL b).flatMap bangCharL = byteEscapeL b := by
  have h1 : isBangClass (hexDigitUpper (b / 16 % 16)) = false :=
    hexDigitUpper_not_bang _ (Nat.mod_lt _ (by norm_num))
  have h0 : isBangClass (hexDigitUpper (b % 16)) = false :=
    hexDigitUpper_not_bang _ (Nat.mod_lt _ (by norm_num))
  simp [byteEscapeL, bangCharL, h1, h0,
    show isBangClass '%' = false from by decide]

theorem ecma_unescaped_split (c : Char) :
    isUriUnescapedECMA c = (isRfcUnreserved c || isBangClass c) := by
  simp only [isUriUnescapedECMA, isRfcUnreserved, isBangClass]
  cases c.isAlphanum <;>
    simp [Bool.or_assoc, Bool.or_comm, Bool.or_left_comm]

theorem bang_cases (c : Char) (hb : isBangClass c = true) :
    c = '!' ∨ c = Char.ofNat 39 ∨ c = '(' ∨ c = ')' ∨ c = '*' := by
  simp only [isBangClass, Bool.or_eq_true, decide_eq_true_eq] at hb
  tauto

theorem encURIChar_bang_rfc (c : Char) :
    (encURICharL c).flatMap bangCharL = rfcCharL c := by
  by_cases hb : isBangClass c = true
  · rcases bang_cases c hb with h | h | h | h | h <;> subst h <;> decide
  · rw [Bool.not_eq_true] at hb
    by_cases he : isUriUnescapedECMA c = true
    · have hrfc : isRfcUnreserved c = true := by
        rw [ecma_unescaped_split, hb, Bool.or_false] at he
        exact he
      simp [encURICharL, he, bangCharL, hb, rfcCharL, hrfc]
    · rw [Bool.not_eq_true] at he
      have hrfc : isRfcUnreserved c = false := by
        rw [ecma_unescaped_split] at he
        exact (Bool.or_eq_false_iff.mp he).1
      simp only [encURICharL, he, Bool.false_eq_true, if_false,
        rfcCharL, hrfc]
      rw [listFlatMap_assoc]
      simp only [byteEscapeL_bang_fixed]

/-- Claim C8: the OAuth1 `percentEncode` follows RFC 3986
unreserved-character rules exactly — for every input string it agrees
with the spec-side `rfc3986Encode` (letters, digits and `-._~` kept,
every other character escaped as the `%XX` codes of its UTF-8 bytes),
and on the literal pairs: `"!"` encodes to `"%21"`, `" "` to `"%20"`. -/
theorem C8_percentEncode_rfc3986 :
    (∀ s, percentEncode s = rfc3986Encode s) ∧
    percentEncode "!" = "%21" ∧ percentEncode " " = "%20" := by
  refine ⟨fun s => ?_, by decide, by decide⟩
  unfold percentEncode rfc3986Encode
  rw [listFlatMap_assoc]
  simp only [encURIChar_bang_rfc]

-- ── Lemmas about parseTokenResponse ─────────────────────────────────────

theorem refreshTokenOf_of_missing (d : TokenResp) (ex : Option String)
    (h : ∀ s, d.refresh_token = some (.vstr s) → s = "") :
    refreshTokenOf d ex = ex := by
  unfold refreshTokenOf
  rcases hd : d.refresh_token with _ | v
  · rfl
  · cases v with
    | vstr r =>
      have : r = "" := h r hd
      simp [this]
    | vnum n => rfl
    | vnan => rfl
    | vbool b => rfl
    | vnull => rfl
    | vobj => rfl

theorem parseTokenResponse_ok (d : TokenResp) (now : Int) (ex : Option String)
    (a r : String) (ha : d.access_token = some (.vstr a)) (ha' : a ≠ "")
    (hr : refreshTokenOf d ex = some r) (hr' : r ≠ "") :
    parseTokenResponse d now ex = .ok ⟨a, r, jexpiry now (expiresInOf d)⟩ := by
  unfold parseTokenResponse
  rw [ha]
  simp [ha', hr, hr']

theorem parseTokenResponse_error_shape (d : TokenResp) (now : Int)
    (ex : Option String) (e : String)
    (h : parseTokenResponse d now ex = .error e) :
    e = "Token response missing valid access_token" ∨
    e = "No refresh token in response and no existing token to preserve" := by
  unfold parseTokenResponse at h
  rcases hd : d.access_token with _ | v <;> rw [hd] at h
  · exact .inl (Except.error.inj h).symm
  · cases v with
    | vstr a =>
      by_cases ha : a = ""
      · simp [ha] at h
        exact .inl h.symm
      · simp only [ha, if_false] at h
        rcases hrt : refreshTokenOf d ex with _ | r <;> rw [hrt] at h
        · exact .inr (Except.error.inj h).symm
        · by_cases hr : r = ""
          · simp [hr] at h
            exact .inr h.symm
          · simp [hr] at h
    | vnum n => exact .inl (Except.error.inj h).symm
    | vnan => exact .inl (Except.error.inj h).symm
    | vbool b => exact .inl (Except.error.inj h).symm
    | vnull => exact .inl (Except.error.inj h).symm
    | vobj => exact .inl (Except.error.inj h).symm

-- ── Claim C1: getValidAccessToken (generic OAuth2 client) ───────────────

/-- Claim C1: `getValidAccessToken` fails with the NotLoggedIn error when
no tokens are persisted; when `now < expiresAt` it returns the cached
access token with zero refresh calls and an unchanged store; when
`now >= expiresAt` it loads client credentials from `credentialsTool`
(defaulting to `tool`), performs exactly one refresh call, persists the
refreshed tokens via `saveTokens`, and returns the new access token. -/
theorem C1_getValidAccessToken (st : Store) (tool : String)
    (credTool : Option String) (now : Int) (oracle : TokenResp) :
    (loadTokens st tool = none →
      getValidAccessToken st tool credTool now oracle =
        .error ("Not logged in. Run: " ++ tool ++ " auth-login")) ∧
    (∀ t, loadTokens st tool = some t → jlt now t.expiresAt = true →
      getValidAccessToken st tool credTool now oracle =
        .ok (t.accessToken, st, 0)) ∧
    (∀ t c r, loadTokens st tool = some t → jlt now t.expiresAt = false →
      loadOAuth2Credentials st (credTool.getD tool) = .ok c →
      refreshAccessToken oracle now t.refreshToken = .ok r →
      getValidAccessToken st tool credTool now oracle =
        .ok (r.accessToken, saveTokens st tool r, 1)) := by
  refine ⟨fun h => ?_, fun t ht hlt => ?_, fun t c r ht hlt hc hr => ?_⟩
  · simp [getValidAccessToken, h]
  · simp [getValidAccessToken, ht, hlt]
  · simp [getValidAccessToken, refreshBranch, ht, hlt, hc, hr]

/-- Witness for C1 at concrete stores: the empty store yields the
NotLoggedIn error, and the expired demo store performs the one refresh. -/
theorem C1_witness :
    getValidAccessToken [] "cal" none 200 demoRefreshResp =
      .error "Not logged in. Run: cal auth-login" ∧
    getValidAccessToken demoStore "cal" none 200 demoRefreshResp =
      .ok ("NEWA", saveTokens demoStore "cal" ⟨"NEWA", "NEWR", .int 3740⟩, 1) := by
  constructor
  · exact (C1_getValidAccessToken [] "cal" none 200 demoRefreshResp).1
      (by decide)
  · exact (C1_getValidAccessToken demoStore "cal" none 200
      demoRefreshResp).2.2 ⟨"A", "R", .int 100⟩ ⟨"CI", "CS", "RU"⟩
      ⟨"NEWA", "NEWR", .int 3740⟩ (by decide) (by decide) (by decide)
      (by decide)

-- ── Claim C2 (corrected): exchangeCode outcome shape ────────────────────

/-- Counterexample to claim C2 as stated: a response with a valid
`access_token` but no `refresh_token` makes `exchangeCode` fail even
though the response does not lack `access_token`, and the failure is not
a `TokenExchangeFailed` error (which here would read
`"Token exchange failed: unknown"`). -/
theorem C2_counterexample :
    truthyV ({ access_token := some (.vstr "tok") } : TokenResp).access_token
      = true ∧
    exchangeCode { access_token := some (.vstr "tok") } 0 =
      .error "No refresh token in response and no existing token to preserve" ∧
    errText { access_token := some (.vstr "tok") } = "unknown" ∧
    "No refresh token in response and no existing token to preserve" ≠
      "Token exchange failed: unknown" := by
  decide

/-- Claim C2 as amended: `exchangeCode` fails with `TokenExchangeFailed`
(surfacing `error_description ?? error ?? "unknown"`) exactly when the
response's `access_token` is falsy; when `access_token` and
`refresh_token` are nonempty strings it returns a token object with
`expiresAt = now + expires_in - 60`, where `expires_in` defaults to 3600
when absent or a non-numerically-parsing string. -/
theorem C2_exchangeCode_amended (d : TokenResp) (now : Int) :
    (truthyV d.access_token = false →
      exchangeCode d now = .error ("Token exchange failed: " ++ errText d)) ∧
    (truthyV d.access_token = true →
      ∀ m, exchangeCode d now ≠ .error ("Token exchange failed: " ++ m)) ∧
    (∀ a r, d.access_token = some (.vstr a) → a ≠ "" →
      d.refresh_token = some (.vstr r) → r ≠ "" →
      exchangeCode d now = .ok ⟨a, r, jexpiry now (expiresInOf d)⟩) ∧
    (∀ n, d.expires_in = some (.vnum n) → expiresInOf d = .int n) ∧
    ((d.expires_in = none ∨
        ∃ s, d.expires_in = some (.vstr s) ∧ parseIntJS s = .nan) →
      expiresInOf d = .int 3600) := by
  refine ⟨fun h => by simp [exchangeCode, h], fun ht m hc => ?_,
    fun a r ha ha' hr hr' => ?_, fun n h => by simp [expiresInOf, h],
    fun h => ?_⟩
  · rw [exchangeCode, if_pos ht] at hc
    rcases parseTokenResponse_error_shape d now none _ hc with h | h
    · exact string_append_ne "Token exchange failed: "
        "Token response missing valid access_token" (by decide) m h
    · exact string_append_ne "Token exchange failed: "
        "No refresh token in response and no existing token to preserve"
        (by decide) m h
  · have ht : truthyV d.access_token = true := by simp [truthyV, ha, ha']
    rw [exchangeCode, if_pos ht]
    exact parseTokenResponse_ok d now none a r ha ha'
      (by simp [refreshTokenOf, hr, hr']) hr'
  · rcases h with h | ⟨s, hs, hn⟩
    · simp [expiresInOf, h]
    · simp [expiresInOf, hs, hn]

/-- Witness for the amended C2: the empty response fails with
`TokenExchangeFailed`, and a complete response yields the buffered
expiry. -/
theorem C2_witness :
    exchangeCode {} 0 = .error "Token exchange failed: unknown" ∧
    exchangeCode demoFullResp 5 = .ok ⟨"a", "r", .int 45⟩ := by
  constructor
  · exact ((C2_exchangeCode_amended {} 0).1 (by decide)).trans (by decide)
  · exact ((C2_exchangeCode_amended _ 5).2.2.1 "a" "r" rfl (by decide) rfl
      (by decide)).trans (by decide)

-- ── Claim C3: refresh preserves the existing refresh token ──────────────

/-- Claim C3: when the refresh response has a valid `access_token` but
omits (or has a non-string or empty) `refresh_token`, the resulting
token object's `refreshToken` equals the pre-refresh refresh token; and
when neither a new nor an existing refresh token is available the parse
fails with the missing-refresh-token error. -/
theorem C3_refresh_preserves_refresh_token (d : TokenResp) (now : Int)
    (rt : String) :
    (∀ a, rt ≠ "" → d.access_token = some (.vstr a) → a ≠ "" →
      (∀ s, d.refresh_token = some (.vstr s) → s = "") →
      refreshAccessToken d now rt =
        .ok ⟨a, rt, jexpiry now (expiresInOf d)⟩) ∧
    (∀ a ex, d.access_token = some (.vstr a) → a ≠ "" →
      (∀ s, d.refresh_token = some (.vstr s) → s = "") →
      (ex = none ∨ ex = some "") →
      parseTokenResponse d now ex =
        .error "No refresh token in response and no existing token to preserve") := by
  constructor
  · intro a hrt ha ha' hmiss
    have ht : truthyV d.access_token = true := by simp [truthyV, ha, ha']
    rw [refreshAccessToken, if_pos ht]
    exact parseTokenResponse_ok d now (some rt) a rt ha ha'
      (by rw [refreshTokenOf_of_missing d _ hmiss]) hrt
  · intro a ex ha ha' hmiss hex
    unfold parseTokenResponse
    rw [ha]
    simp only [ha', if_false, refreshTokenOf_of_missing d ex hmiss]
    rcases hex with h | h <;> subst h <;> simp

/-- Witness for C3: a refresh response omitting `refresh_token` keeps the
pre-refresh value `"OLD"`; with no existing token the parse fails. -/
theorem C3_witness :
    refreshAccessToken demoNoRefreshResp 100 "OLD" =
      .ok ⟨"NEWA", "OLD", .int 3640⟩ ∧
    parseTokenResponse demoNoRefreshResp 100 none =
      .error "No refresh token in response and no existing token to preserve" := by
  constructor
  · exact ((C3_refresh_preserves_refresh_token demoNoRefreshResp 100
      "OLD").1 "NEWA" (by decide) rfl (by decide)
      (by intro s hs; cases hs)).trans (by decide)
  · exact (C3_refresh_preserves_refresh_token demoNoRefreshResp 100
      "OLD").2 "NEWA" none rfl (by decide) (by intro s hs; cases hs)
      (.inl rfl)

-- ── Claim C9: exchangeCode with no refresh token always fails ───────────

/-- Claim C9: `exchangeCode` fails with the missing-refresh-token error
whenever the response has a valid (nonempty string) `access_token` but
no usable `refresh_token` — the code exchange has no prior refresh token
to preserve, so such a response never yields a token object. -/
theorem C9_exchangeCode_missing_refresh (d : TokenResp) (now : Int) :
    ∀ a, d.access_token = some (.vstr a) → a ≠ "" →
    (∀ s, d.refresh_token = some (.vstr s) → s = "") →
    exchangeCode d now =
      .error "No refresh token in response and no existing token to preserve" := by
  intro a ha ha' hmiss
  have ht : truthyV d.access_token = true := by simp [truthyV, ha, ha']
  rw [exchangeCode, if_pos ht]
  unfold parseTokenResponse
  rw [ha]
  simp [ha', refreshTokenOf_of_missing d none hmiss]

/-- Witness for C9 at a concrete response. -/
theorem C9_witness :
    exchangeCode demoNoRefreshResp 0 =
      .error "No refresh token in response and no existing token to preserve" := by
  exact C9_exchangeCode_missing_refresh demoNoRefreshResp 0 "NEWA" rfl
    (by decide) (by intro s hs; cases hs)

-- ── Claim C10: absent / non-numeric stored expiry forces the refresh path ──

/-- Claim C10: with nonempty persisted access and refresh tokens but an
absent, empty, or non-numeric `expires-at`, `loadTokens` still returns a
token object whose `expiresAt` is `0` (or `NaN` for a non-numeric
string), so for any real clock `getValidAccessToken` never returns the
cached token and never fails with NotLoggedIn: it takes the refresh
branch, whose successful results always count one refresh call. -/
theorem C10_degenerate_expiry (st : Store) (tool a r : String) (now : Int)
    (ha : getSecret st tool "access-token" = some a) (ha' : a ≠ "")
    (hr : getSecret st tool "refresh-token" = some r) (hr' : r ≠ "")
    (he : getSecret st tool "expires-at" = none ∨
      getSecret st tool "expires-at" = some "" ∨
      ∃ e, getSecret st tool "expires-at" = some e ∧ parseIntJS e = .nan)
    (hnow : 0 ≤ now) :
    ∃ x, loadTokens st tool = some ⟨a, r, x⟩ ∧ (x = .int 0 ∨ x = .nan) ∧
      jlt now x = false ∧
      (∀ credTool oracle, getValidAccessToken st tool credTool now oracle =
        refreshBranch st tool credTool now oracle ⟨a, r, x⟩) ∧
      (∀ credTool oracle tok st',
        getValidAccessToken st tool credTool now oracle ≠ .ok (tok, st', 0)) := by
  obtain ⟨x, hload, hx⟩ :
      ∃ x, loadTokens st tool = some ⟨a, r, x⟩ ∧ (x = .int 0 ∨ x = .nan) := by
    rcases he with h | h | ⟨e, h, hn⟩
    · exact ⟨.int 0, by simp [loadTokens, ha, hr, ha', hr', h], .inl rfl⟩
    · exact ⟨.int 0, by simp [loadTokens, ha, hr, ha', hr', h], .inl rfl⟩
    · by_cases he'' : e = ""
      · exact ⟨.int 0, by simp [loadTokens, ha, hr, ha', hr', h, he''],
          .inl rfl⟩
      · exact ⟨.nan, by simp [loadTokens, ha, hr, ha', hr', h, he'', hn],
          .inr rfl⟩
  have hjlt : jlt now x = false := by
    rcases hx with h | h <;> subst h
    · simp only [jlt, decide_eq_false_iff_not]
      omega
    · rfl
  have hbranch : ∀ credTool oracle,
      getValidAccessToken st tool credTool now oracle =
        refreshBranch st tool credTool now oracle ⟨a, r, x⟩ := by
    intro credTool oracle
    simp [getValidAccessToken, hload, hjlt]
  refine ⟨x, hload, hx, hjlt, hbranch, ?_⟩
  intro credTool oracle tok st' hc
  rw [hbranch credTool oracle] at hc
  unfold refreshBranch at hc
  rcases hcred : loadOAuth2Credentials st (credTool.getD tool) with e | c <;>
    rw [hcred] at hc
  · exact Except.noConfusion hc
  · rcases hrr : refreshAccessToken oracle now
        ((⟨a, r, x⟩ : OAuth2Tokens).refreshToken) with e | rr <;>
      rw [hrr] at hc
    · exact Except.noConfusion hc
    · have h := Except.ok.inj hc
      simp [Prod.ext_iff] at h

/-- Witness for C10: the demo store stores `expires-at = "abc"`, which
parses to `NaN`; the refresh path is forced. -/
theorem C10_witness :
    ∃ x, loadTokens demoNanStore "cal" = some ⟨"A", "R", x⟩ ∧
      (x = .int 0 ∨ x = .nan) ∧ jlt 5 x = false ∧
      (∀ credTool oracle, getValidAccessToken demoNanStore "cal" credTool 5 oracle =
        refreshBranch demoNanStore "cal" credTool 5 oracle ⟨"A", "R", x⟩) ∧
      (∀ credTool oracle tok st',
        getValidAccessToken demoNanStore "cal" credTool 5 oracle ≠
          .ok (tok, st', 0)) := by
  exact C10_degenerate_expiry demoNanStore "cal" "A" "R" 5 (by decide)
    (by decide) (by decide) (by decide)
    (.inr (.inr ⟨"abc", by decide, by decide⟩)) (by decide)

-- ── Claim C4 (corrected): SSO login outcome classification ──────────────

/-- Counterexample to claim C4 as stated: a body containing an MFA
indicator and a ticket (and no locked indicator) yields success, not
`MfaRequired` — the code extracts the ticket before checking for MFA. -/
theorem C4_counterexample :
    containsSub "MFA ticket=x" "MFA" = true ∧
    containsSub "MFA ticket=x" "locked" = false ∧
    classifyLogin "MFA ticket=x" = .success "x" ∧
    classifyLogin "MFA ticket=x" ≠ .mfaRequired := by
  decide

/-- Claim C4 as amended: a body containing `locked` yields `AccountLocked`
regardless of ticket presence; otherwise a body with an extractable
`ticket=` fragment yields success with the value captured by
`ticket=([^"&\s]+)` (so the ticket check precedes the MFA check); a body
with no ticket but an `MFA` indicator yields `MfaRequired`; a body with
none of these yields `LoginFailed`.  `ticket=abc123&foo=bar` extracts
`"abc123"`. -/
theorem C4_login_classification_amended (html : String) :
    (containsSub html "locked" = true →
      classifyLogin html = .accountLocked) ∧
    (containsSub html "locked" = false → ∀ t, ticketScan html.data = some t →
      classifyLogin html = .success t) ∧
    (containsSub html "locked" = false → ticketScan html.data = none →
      containsSub html "MFA" = true → classifyLogin html = .mfaRequired) ∧
    (containsSub html "locked" = false → ticketScan html.data = none →
      containsSub html "MFA" = false → classifyLogin html = .loginFailed) ∧
    classifyLogin "ticket=abc123&foo=bar" = .success "abc123" := by
  refine ⟨fun h => by simp [classifyLogin, h],
    fun h t ht => by simp [classifyLogin, h, ht],
    fun h hn hm => by simp [classifyLogin, h, hn, hm],
    fun h hn hm => by simp [classifyLogin, h, hn, hm],
    by decide⟩

/-- Witness for the amended C4 on concrete bodies for all four outcomes. -/
theorem C4_witness :
    classifyLogin "Account locked" = .accountLocked ∧
    classifyLogin "go to ticket=abc123&foo=bar" = .success "abc123" ∧
    classifyLogin "MFA required" = .mfaRequired ∧
    classifyLogin "bad credentials" = .loginFailed := by
  refine ⟨(C4_login_classification_amended "Account locked").1 (by decide),
    (C4_login_classification_amended "go to ticket=abc123&foo=bar").2.1
      (by decide) "abc123" (by decide),
    (C4_login_classification_amended "MFA required").2.2.1 (by decide)
      (by decide) (by decide),
    (C4_login_classification_amended "bad credentials").2.2.2.1 (by decide)
      (by decide) (by decide)⟩

-- ── Claim C5 (corrected): callback listener resolution ──────────────────

theorem cbSettle_ok_source (cell : CbCell) (e : String) (v : String × String)
    (h : cbSettle cell (.error e) = some (.ok v)) : cell = some (.ok v) := by
  cases cell with
  | none => exact Except.noConfusion (Option.some.inj h)
  | some w => exact h

/-- Counterexample to claim C5 as stated: after the flow has resolved, a
further request that still carries a code and the correct state receives
the "Authenticated!" page, not the static waiting page (the resolved
value is nevertheless unchanged). -/
theorem C5_counterexample :
    (cbHandle "s" "u" (some (.ok ("c", "u")))
        { code := some "c2", state := some "s" }).1 = some (.ok ("c", "u")) ∧
    (cbHandle "s" "u" (some (.ok ("c", "u")))
        { code := some "c2", state := some "s" }).2 =
      "Authenticated! You can close this tab and return to the terminal." ∧
    (cbHandle "s" "u" (some (.ok ("c", "u")))
        { code := some "c2", state := some "s" }).2 ≠
      "Waiting for OAuth2 callback..." := by
  decide

/-- Claim C5 as amended: a request whose state differs from the expected
state never resolves the flow successfully; a request with the correct
state and a code resolves the (pending) flow exactly once with that
code; any request after settlement leaves the resolved value unchanged;
and code-less (and error-less) requests receive the static waiting page
— requests carrying a code or error parameter receive their respective
static pages even after resolution. -/
theorem C5_callback_amended (expected uri : String) (cell : CbCell)
    (req : CbRequest) :
    (∀ v, req.state ≠ some expected →
      (cbHandle expected uri cell req).1 = some (.ok v) →
      cell = some (.ok v)) ∧
    (cell = none → truthyS req.error = false →
      ∀ c, req.code = some c → c ≠ "" → req.state = some expected →
      cbHandle expected uri cell req = (some (.ok (c, uri)),
        "Authenticated! You can close this tab and return to the terminal.")) ∧
    (∀ v, cell = some v → (cbHandle expected uri cell req).1 = some v) ∧
    (truthyS req.error = false → (req.code = none ∨ req.code = some "") →
      cbHandle expected uri cell req = (cell, "Waiting for OAuth2 callback...")) := by
  refine ⟨fun v hs hc => ?_, fun hcell herr c hcode hcz hstate => ?_,
    fun v hv => ?_, fun herr hcode => ?_⟩
  · unfold cbHandle at hc
    split at hc
    · exact cbSettle_ok_source _ _ _ hc
    · split at hc
      · exact hc
      · split at hc
        · exact hc
        · exact cbSettle_ok_source _ _ _ hc
  · subst hcell
    simp [cbHandle, herr, hcode, hcz, hstate, cbSettle]
  · subst hv
    unfold cbHandle
    split
    · rfl
    · split
      · rfl
      · split
        · rfl
        · split
          · rfl
          · rfl
  · rcases hcode with h | h <;> simp [cbHandle, herr, h]

/-- Witness for the amended C5: a pending flow resolves on the correct
state and code; a code-less request gets the waiting page. -/
theorem C5_witness :
    cbHandle "s" "u" none { code := some "c", state := some "s" } =
      (some (.ok ("c", "u")),
        "Authenticated! You can close this tab and return to the terminal.") ∧
    cbHandle "s" "u" none {} = (none, "Waiting for OAuth2 callback...") := by
  constructor
  · exact (C5_callback_amended "s" "u" none
      { code := some "c", state := some "s" }).2.1 rfl (by decide) "c" rfl
      (by decide) rfl
  · exact (C5_callback_amended "s" "u" none {}).2.2.2 (by decide) (.inl rfl)

-- ── Claim C6: Garmin token lifecycle ────────────────────────────────────

/-- Claim C6: on a fully stored Garmin token state with expired access
token and still-valid refresh expiry, `getValidAccessToken` performs
exactly one OAuth1→OAuth2 exchange (and, with cached consumer
credentials, no other network call) and returns the new access token;
when the refresh expiry has passed it fails with the
refresh-expired re-login error without performing any network call. -/
theorem C6_garmin_token_lifecycle (st : Store) (now : Int)
    (a eStr ot os reStr ck csec : String) (e re : Int)
    (cresp : Except String Consumer) (d : GData) (xresp : Except String GData)
    (ha : getSecret st "garmin" "access-token" = some a) (ha' : a ≠ "")
    (he : getSecret st "garmin" "expires-at" = some eStr)
    (he' : parseIntJS eStr = .int e) (hen : e ≤ now)
    (hot : getSecret st "garmin" "oauth1-token" = some ot) (hot' : ot ≠ "")
    (hos : getSecret st "garmin" "oauth1-secret" = some os) (hos' : os ≠ "")
    (hre : getSecret st "garmin" "refresh-expires-at" = some reStr)
    (hre' : parseIntJS reStr = .int re)
    (hck : getSecret st "garmin" "consumer-key" = some ck) (hck' : ck ≠ "")
    (hcs : getSecret st "garmin" "consumer-secret" = some csec) :
    (now < re → ∃ st',
      getSecret st' "garmin" "access-token" = some d.access_token ∧
      garminGetValidAccessToken st now cresp (.ok d) =
        (.ok (d.access_token, st'), 1, 0)) ∧
    (re ≤ now → garminGetValidAccessToken st now cresp xresp =
      (.error "Refresh token expired. Run: garmin login", 0, 0)) := by
  have h1 : jlt now (parseIntJS ((getSecret st "garmin" "expires-at").getD "0"))
      = false := by
    rw [he]
    simp only [Option.getD_some, he', jlt, decide_eq_false_iff_not]
    omega
  have htr1 : truthyS (getSecret st "garmin" "oauth1-token") = true := by
    rw [hot]; simp [truthyS, hot']
  have htr2 : truthyS (getSecret st "garmin" "oauth1-secret") = true := by
    rw [hos]; simp [truthyS, hos']
  have hcons : getConsumer st cresp = (.ok (⟨ck, csec⟩, st), 0) := by
    unfold getConsumer
    rw [hck]
    simp [hck', hcs]
  constructor
  · intro hlt
    have h2 : jge now (parseIntJS
        ((getSecret st "garmin" "refresh-expires-at").getD "0")) = false := by
      rw [hre]
      simp only [Option.getD_some, hre', jge, decide_eq_false_iff_not]
      omega
    refine ⟨setSecret (setSecret (setSecret (setSecret st
      "garmin" "access-token" d.access_token)
      "garmin" "refresh-token" d.refresh_token)
      "garmin" "expires-at" (toString (now + d.expires_in - 60)))
      "garmin" "refresh-expires-at" (toString (now + d.refresh_token_expires_in - 60)),
      ?_, ?_⟩
    · rw [getSecret_setSecret_ne _ _ _ _ _ _ (by decide),
        getSecret_setSecret_ne _ _ _ _ _ _ (by decide),
        getSecret_setSecret_ne _ _ _ _ _ _ (by decide),
        getSecret_setSecret_self]
    · unfold garminGetValidAccessToken
      rw [ha]
      simp only [ha', if_false, h1, Bool.false_eq_true, htr1, htr2,
        Bool.and_self, Bool.not_true, h2, hcons, exchangeOAuth2]
      rw [getSecret_setSecret_ne _ _ _ _ _ _ (by decide),
        getSecret_setSecret_ne _ _ _ _ _ _ (by decide),
        getSecret_setSecret_ne _ _ _ _ _ _ (by decide),
        getSecret_setSecret_self]
      simp
  · intro hge
    have h2 : jge now (parseIntJS
        ((getSecret st "garmin" "refresh-expires-at").getD "0")) = true := by
      rw [hre]
      simp [hre', jge, hge]
    unfold garminGetValidAccessToken
    rw [ha]
    simp only [ha', if_false, h1, Bool.false_eq_true, htr1, htr2,
      Bool.and_self, Bool.not_true, h2, if_true]
    simp

/-- Witness for C6: the demo Garmin store refreshes once without touching
the consumer endpoint (its oracle is a network failure, unused); the
dead store fails with zero network calls. -/
theorem C6_witness :
    (∃ st', getSecret st' "garmin" "access-token" = some "NEWA" ∧
      garminGetValidAccessToken demoGarminStore 50 (.error "net down")
        (.ok demoGData) = (.ok ("NEWA", st'), 1, 0)) ∧
    garminGetValidAccessToken demoGarminDeadStore 50 (.error "net down")
      (.error "never called") =
      (.error "Refresh token expired. Run: garmin login", 0, 0) := by
  constructor
  · exact (C6_garmin_token_lifecycle demoGarminStore 50 "A" "10" "OT" "OS"
      "100" "CK" "CSEC" 10 100 (.error "net down") demoGData
      (.error "never called") (by decide) (by decide) (by decide) (by decide)
      (by decide) (by decide) (by decide) (by decide) (by decide) (by decide)
      (by decide) (by decide) (by decide) (by decide)).1 (by decide)
  · exact (C6_garmin_token_lifecycle demoGarminDeadStore 50 "A" "10" "OT"
      "OS" "40" "CK" "CSEC" 10 40 (.error "net down") demoGData
      (.error "never called") (by decide) (by decide) (by decide) (by decide)
      (by decide) (by decide) (by decide) (by decide) (by decide) (by decide)
      (by decide) (by decide) (by decide) (by decide)).2 (by decide)

-- ── Claim C7: OAuth1 tokens persisted before and kept across exchange ───

/-- Claim C7: the login flow persists the OAuth1 token and secret before
attempting the OAuth1→OAuth2 exchange, and an exchange failure leaves
the store exactly as it was after that persist — the OAuth1 pair is
present in the final store on every path. -/
theorem C7_oauth1_persisted (st : Store) (ot os : String) (now : Int)
    (resp : Except String GData) :
    getSecret (garminLoginTail st ot os now resp).2 "garmin" "oauth1-token"
      = some ot ∧
    getSecret (garminLoginTail st ot os now resp).2 "garmin" "oauth1-secret"
      = some os ∧
    (∀ e, resp = .error e → (garminLoginTail st ot os now resp).2 =
      setSecret (setSecret st "garmin" "oauth1-token" ot)
        "garmin" "oauth1-secret" os) := by
  cases resp with
  | error e =>
    refine ⟨?_, ?_, fun e' _ => rfl⟩
    · simp only [garminLoginTail, exchangeOAuth2]
      rw [getSecret_setSecret_ne _ _ _ _ _ _ (by decide),
        getSecret_setSecret_self]
    · simp only [garminLoginTail, exchangeOAuth2]
      rw [getSecret_setSecret_self]
  | ok d =>
    refine ⟨?_, ?_, fun e' he' => by cases he'⟩
    · simp only [garminLoginTail, exchangeOAuth2]
      rw [getSecret_setSecret_ne _ _ _ _ _ _ (by decide),
        getSecret_setSecret_ne _ _ _ _ _ _ (by decide),
        getSecret_setSecret_ne _ _ _ _ _ _ (by decide),
        getSecret_setSecret_ne _ _ _ _ _ _ (by decide),
        getSecret_setSecret_ne _ _ _ _ _ _ (by decide),
        getSecret_setSecret_self]
    · simp only [garminLoginTail, exchangeOAuth2]
      rw [getSecret_setSecret_ne _ _ _ _ _ _ (by decide),
        getSecret_setSecret_ne _ _ _ _ _ _ (by decide),
        getSecret_setSecret_ne _ _ _ _ _ _ (by decide),
        getSecret_setSecret_ne _ _ _ _ _ _ (by decide),
        getSecret_setSecret_self]

/-- Witness for C7: a failing exchange leaves exactly the two persisted
OAuth1 entries. -/
theorem C7_witness :
    (garminLoginTail [] "OT" "OS" 0 (.error "http 500")).2 =
      setSecret (setSecret [] "garmin" "oauth1-token" "OT")
        "garmin" "oauth1-secret" "OS" ∧
    getSecret (garminLoginTail [] "OT" "OS" 0 (.error "http 500")).2
      "garmin" "oauth1-token" = some "OT" := by
  constructor
  · exact (C7_oauth1_persisted [] "OT" "OS" 0 (.error "http 500")).2.2
      "http 500" rfl
  · exact (C7_oauth1_persisted [] "OT" "OS" 0 (.error "http 500")).1

end Luff
